import Mathlib

/-!
Verification development for the kortschak/scheduler repository: a Google
Cloud Scheduler emulator (`scheduler`, publisher side) and a Pub/Sub
`listener` (subscriber side).  The definitions below are a shallow embedding
of the two `main` functions and their helpers; external bus operations
(topic/subscription creation and deletion) are modelled as explicit state on
a `Bus` value, with per-call failure oracles standing in for transient
service errors.
-/

/-! ### Duration parsing

The listener normalizes the polymorphic `expirationpolicy` config field with
Go's `time.ParseDuration`.  `parseDuration` below ports that function
(go1.16 `time/format.go`): signed, a sequence of decimal-number/unit terms,
units ns/us/µs/μs/ms/s/m/h, with int64 overflow checks.  Durations are
nanosecond counts carried as `Int` with explicit int64 bounds.  The one
deviation: Go computes fractional contributions through `float64` rounding;
here the fraction is exact integer arithmetic (`f * unit / scale`).  No
claim exercises fractional durations, so the accepted/rejected language and
all whole-unit values coincide with Go's.
-/

def maxInt64 : Int := 2 ^ 63 - 1

/-- Unit table of Go `time.ParseDuration` (`unitMap`), values in
nanoseconds. -/
def unitVal : List Char → Option Int
  | ['n', 's'] => some 1
  | ['u', 's'] => some 1000
  | ['µ', 's'] => some 1000
  | ['μ', 's'] => some 1000
  | ['m', 's'] => some 1000000
  | ['s'] => some 1000000000
  | ['m'] => some 60000000000
  | ['h'] => some 3600000000000
  | _ => none

/-- Port of Go `leadingInt`: consume leading decimal digits into `x`,
failing on int64 overflow. -/
def leadingInt (x : Int) : List Char → Option (Int × List Char)
  | [] => some (x, [])
  | c :: cs =>
    if c.isDigit then
      if x > maxInt64 / 10 then none
      else
        let y := x * 10 + ((c.toNat : Int) - ('0'.toNat : Int))
        if y > maxInt64 then none else leadingInt y cs
    else some (x, c :: cs)

/-- Port of Go `leadingFraction`: consume digits after the decimal point,
tracking the scale, silently saturating on overflow. -/
def leadingFraction (x scale : Int) (overflow : Bool) :
    List Char → Int × Int × List Char
  | [] => (x, scale, [])
  | c :: cs =>
    if c.isDigit then
      if overflow then leadingFraction x scale true cs
      else if x > maxInt64 / 10 then leadingFraction x scale true cs
      else
        let y := x * 10 + ((c.toNat : Int) - ('0'.toNat : Int))
        if y > maxInt64 then leadingFraction x scale true cs
        else leadingFraction y (scale * 10) false cs
    else (x, scale, c :: cs)

/-- Length of the unit token: the maximal leading run of characters that are
neither digits nor a decimal point (the unit-consuming loop of
`ParseDuration`). -/
def unitLen : List Char → Nat
  | [] => 0
  | c :: cs => if c = '.' ∨ c.isDigit then 0 else 1 + unitLen cs

/-- Optional fractional part `(\.[0-9]*)?` of one duration term, returning
the fraction value, its scale, the rest of the input, and whether any
fraction digit was consumed. -/
def fracPart : List Char → Int × Int × List Char × Bool
  | '.' :: rest =>
    match leadingFraction 0 1 false rest with
    | (f, sc, r) => (f, sc, r, decide (r.length ≠ rest.length))
  | s => (0, 1, s, false)

/-- Main loop of `ParseDuration`: parse number/unit terms, accumulating the
nanosecond total `d` with int64 overflow checks.  The fuel argument bounds
iterations; every term consumes at least its one-character unit, so
`length + 1` fuel never exhausts. -/
def parseTerms : Nat → Int → List Char → Option Int
  | 0, _, _ => none
  | _ + 1, d, [] => some d
  | fuel + 1, d, c :: cs =>
    if ¬(c = '.' ∨ c.isDigit) then none
    else
      match leadingInt 0 (c :: cs) with
      | none => none
      | some (v, s1) =>
        let pre := decide (s1.length ≠ (c :: cs).length)
        match fracPart s1 with
        | (f, scale, s2, post) =>
          if pre = false ∧ post = false then none
          else
            let i := unitLen s2
            if i = 0 then none
            else
              match unitVal (s2.take i) with
              | none => none
              | some unit =>
                if v > maxInt64 / unit then none
                else
                  let v1 := v * unit
                  let v2 := if f > 0 then v1 + f * unit / scale else v1
                  if v2 > maxInt64 then none
                  else
                    let d1 := d + v2
                    if d1 > maxInt64 then none
                    else parseTerms fuel d1 (s2.drop i)

/-- Port of Go `time.ParseDuration`, returning the duration in nanoseconds,
or `none` where Go returns an error. -/
def parseDuration (s : String) : Option Int :=
  let cs := s.toList
  match
    (match cs with
     | '-' :: r => (true, r)
     | '+' :: r => (false, r)
     | r => (false, r) : Bool × List Char)
  with
  | (neg, cs1) =>
    if cs1 = ['0'] then some 0
    else if cs1 = [] then none
    else
      match parseTerms (cs1.length + 1) 0 cs1 with
      | none => none
      | some d => some (if neg then -d else d)

/-! ### Expiration-policy normalization (listener main.go lines 75-90)

The YAML-decoded `ExpirationPolicy` field is dynamically typed
(`interface\x7b\x7d` in Go); `ExpValue` covers the shapes the switch in
`main` distinguishes: `nil`, `string`, `int`, an already-normalized
`time.Duration`, and every other dynamic type collapsed into `other`
(both of the latter reach the switch's `default` branch, since
`time.Duration` is a distinct type from `int`).
-/

inductive ExpValue
  | nil
  | str (s : String)
  | int (n : Int)
  | dur (ns : Int)
  | other
deriving DecidableEq, Repr

/-- Wrap an integer into int64 two's-complement range, as Go's int64
arithmetic does on overflow. -/
def int64wrap (n : Int) : Int := (n + 2 ^ 63) % 2 ^ 64 - 2 ^ 63

/-- The normalization switch of listener `main` (main.go:76-90): `nil` is
left alone; a string is parsed with `time.ParseDuration` (parse failure is
a fatal config error); an `int` is multiplied by `time.Second`; any other
dynamic type is a fatal config error.  `Except.error` models
`log.Fatalf`. -/
def normalizeExpiration : ExpValue → Except String ExpValue
  | .nil => .ok .nil
  | .str s =>
    match parseDuration s with
    | some d => .ok (.dur d)
    | none => .error "failed to parse subscription config"
  | .int n => .ok (.dur (int64wrap (n * 1000000000)))
  | .dur _ => .error "not valid expiration policy"
  | .other => .error "not valid expiration policy"

/-! ### Listener data model (listener/main.go)

`subscription` and `config` mirror the Go structs of the same names.
`SubscriptionConfig` models `pubsub.SubscriptionConfig` by a representative
subset of its delivery fields (the zero value of every field is the Go zero
value, so equality with the empty literal models `reflect.DeepEqual` with
the zero struct in `isEmptyConfig`).  The bus-side state visible to this
process is a `Bus`: the topics and subscriptions existing in the project.
-/

structure SubscriptionConfig where
  ackDeadline : Int := 0
  retentionDuration : Int := 0
  expirationPolicy : ExpValue := .nil
deriving DecidableEq, Repr

/-- Port of listener `isEmptyConfig` (main.go:205-207): `reflect.DeepEqual`
against the zero `pubsub.SubscriptionConfig`. -/
def isEmptyConfig (cfg : SubscriptionConfig) : Bool :=
  decide (cfg = {})

structure subscription where
  topic : String
  id : String
  config : SubscriptionConfig := {}
deriving DecidableEq, Repr

structure config where
  project : String
  subscriptions : List subscription := []
  defaultConfig : SubscriptionConfig := {}
deriving DecidableEq, Repr

/-- A subscription existing in the project, as the bus service tracks it. -/
structure BusSub where
  id : String
  topic : String
  config : SubscriptionConfig
deriving DecidableEq, Repr

/-- Project state held by the external bus service. -/
structure Bus where
  topics : List String
  subs : List BusSub
deriving DecidableEq, Repr

/-- Go contexts as the model needs them: the fresh background context, or
the per-run cancellation context with its cancelled flag. -/
inductive Ctx
  | background
  | run (cancelled : Bool)
deriving DecidableEq, Repr

/-- Whether the context's Done channel has fired; bus calls made with a done
context fail immediately. -/
def Ctx.done : Ctx → Bool
  | .background => false
  | .run c => c

/-- The normalization for-loop of listener `main` (main.go:75-90), applied
to every configured subscription in order; the first invalid policy is
fatal (`log.Fatalf`), modelled by `Except.error`. -/
def normalizeSubs : List subscription → Except String (List subscription)
  | [] => .ok []
  | s :: rest => do
    let e ← normalizeExpiration s.config.expirationPolicy
    let rest1 ← normalizeSubs rest
    .ok ({ s with config := { s.config with expirationPolicy := e } } :: rest1)

/-- Outcome of `pubsub.Client.CreateSubscription` as listener `main`
distinguishes it at main.go:138-146: success, the gRPC `AlreadyExists`
code, or any other error. -/
inductive CreateSubResult
  | ok
  | alreadyExists
  | otherError
deriving DecidableEq, Repr

/-- Model of `client.CreateSubscription` (main.go:138): the service returns
`AlreadyExists` when a subscription with the requested id exists in the
project; other transient failures are injected by the oracle `fail`;
otherwise the subscription is created in the project. -/
def createSubscription (fail : String → Bool) (bus : Bus) (id topicName : String)
    (cfg : SubscriptionConfig) : Bus × CreateSubResult :=
  if bus.subs.any (fun s => s.id == id) then (bus, .alreadyExists)
  else if fail id then (bus, .otherError)
  else ({ bus with subs := bus.subs ++ [⟨id, topicName, cfg⟩] }, .ok)

/-- The iteration body of `deleteAllSubscriptions` (main.go:188-202) over
the project's subscriptions: attempt deletion of every one; a failed delete
is logged and the loop continues to the next.  Returns the subscriptions
remaining (the failures) and the ids attempted, in order. -/
def deleteLoopSubs (deleteOk : String → Bool) :
    List BusSub → List BusSub × List String
  | [] => ([], [])
  | s :: rest =>
    let r := deleteLoopSubs deleteOk rest
    if deleteOk s.id then (r.1, s.id :: r.2)
    else (s :: r.1, s.id :: r.2)

/-- The subscription clean-up pass run with an explicit context: enumerate
every subscription in the project (`client.Subscriptions`) and delete each,
logging and continuing on individual failures.  A context whose Done
channel has fired makes the underlying bus calls fail immediately, so no
deletion is attempted. -/
def deleteAllSubscriptionsCtx (ctx : Ctx) (deleteOk : String → Bool) (bus : Bus) :
    Bus × List String :=
  if ctx.done then (bus, [])
  else ({ bus with subs := (deleteLoopSubs deleteOk bus.subs).1 },
        (deleteLoopSubs deleteOk bus.subs).2)

/-- Port of listener `deleteAllSubscriptions` (main.go:187-203): the
function takes no context from its caller and passes `context.Background()`
to both the subscription iterator and every `Delete` call. -/
def deleteAllSubscriptions (deleteOk : String → Bool) (bus : Bus) :
    Bus × List String :=
  deleteAllSubscriptionsCtx Ctx.background deleteOk bus

/-- Topic-enumeration phase of listener `main` (main.go:104-120): when the
configured subscription list is empty (`all`), one subscription per visible
topic is appended, with id equal to the topic id and the zero config;
otherwise the configured list is used as is. -/
def synthesizeSubs (busTopics : List String) (subs : List subscription) :
    List subscription :=
  if subs.isEmpty then busTopics.map (fun t => { topic := t, id := t })
  else subs

/-- Result of the subscription-creation loop (main.go:126-163): either the
process exited (creation failure path: `deleteAllSubscriptions` then
`os.Exit(1)`), or it is running with the receive loops that were started. -/
inductive SubscribePhase
  | exited (code : Nat) (bus : Bus)
  | running (bus : Bus) (loops : List String)
deriving DecidableEq, Repr

/-- The subscription-creation loop of listener `main` (main.go:126-163):
an empty per-subscription config is replaced by the default config; a
creation returning `AlreadyExists` is logged and skipped (no receive loop
started, nothing recorded); any other creation error runs
`deleteAllSubscriptions` and exits 1; on success a receive-loop goroutine
is started for the subscription. -/
def subscribeAll (fail deleteOk : String → Bool) (defaultCfg : SubscriptionConfig) :
    List subscription → Bus → List String → SubscribePhase
  | [], bus, loops => .running bus loops
  | sub :: rest, bus, loops =>
    let subCfg := if isEmptyConfig sub.config then defaultCfg else sub.config
    match createSubscription fail bus sub.id sub.topic subCfg with
    | (bus1, .ok) => subscribeAll fail deleteOk defaultCfg rest bus1 (loops ++ [sub.id])
    | (bus1, .alreadyExists) => subscribeAll fail deleteOk defaultCfg rest bus1 loops
    | (bus1, .otherError) => .exited 1 (deleteAllSubscriptions deleteOk bus1).1

/-- Shutdown tail of listener `main` (main.go:165-181): by this point the
run context has been cancelled and `wg.Wait()` has returned; the teardown
then calls `deleteAllSubscriptions`, which takes no context argument and
uses the background context internally — the run context is not consulted,
which is why the parameter is unused. -/
def listenerTeardown (_runCtx : Ctx) (deleteOk : String → Bool) (bus : Bus) :
    Bus × List String :=
  deleteAllSubscriptions deleteOk bus

/-- Process-level outcome of listener `main`.  `fatalConfig` is a
`log.Fatalf` before the pubsub client touches the project (the carried bus
is the untouched project state); `noSubsList` is the
no-available-subscriptions log followed by `os.Exit(0)` with no resource
created and no receive loop started; `createFailed` is the exit-1 path
after the creation-failure clean-up; `finished` carries the project state
after teardown, the receive loops that ran, and the subscription ids whose
deletion was attempted during teardown. -/
inductive ListenerOutcome
  | fatalConfig (msg : String) (bus : Bus)
  | noSubsList (bus : Bus)
  | createFailed (code : Nat) (bus : Bus)
  | finished (bus : Bus) (loops attempted : List String)
deriving DecidableEq, Repr

/-- Process exit code of each listener outcome (`log.Fatalf` exits 1). -/
def listenerCode : ListenerOutcome → Nat
  | .fatalConfig _ _ => 1
  | .noSubsList _ => 0
  | .createFailed c _ => c
  | .finished _ _ _ => 0

/-- Listener `main` after flag handling, as a function of the decoded
config (`Except.error` for a YAML decode failure), the failure oracles, the
project state, and the run's cancellation context: normalize expiration
policies (fatal on error, before the client exists); enumerate topics and
synthesize subscriptions when none are configured; exit 0 when there is
still no subscription; run the creation loop; then — once cancellation has
fired and all receive loops have been waited for — run the teardown. -/
def listenerMain (decoded : Except String config) (fail deleteOk : String → Bool)
    (bus : Bus) (runCtx : Ctx) : ListenerOutcome :=
  match decoded with
  | .error e => .fatalConfig e bus
  | .ok cfg =>
    match normalizeSubs cfg.subscriptions with
    | .error e => .fatalConfig e bus
    | .ok normalized =>
      let subs := synthesizeSubs bus.topics normalized
      if subs.isEmpty then .noSubsList bus
      else
        match subscribeAll fail deleteOk cfg.defaultConfig subs bus [] with
        | .exited code bus1 => .createFailed code bus1
        | .running bus1 loops =>
          match listenerTeardown runCtx deleteOk bus1 with
          | (bus2, attempted) => .finished bus2 loops attempted

/-! ### Scheduler data model (src/unnamed/part_002)

`job` and `target` mirror the Go structs.  Topic creation and cronspec
registration are driven by oracles: `createOk` decides whether
`client.CreateTopic` succeeds for a topic name, `cronOk` whether
`cron.AddFunc` accepts a cronspec string.  The bus-side state is the list
of topics existing in the project.
-/

structure Target where
  destination : String
  topic : String
deriving DecidableEq, Repr

structure job where
  name : String
  description : String := ""
  frequency : String
  timezone : String := ""
  target : Target
  payload : String := ""
deriving DecidableEq, Repr

/-- ASCII lowering of a string, as `strings.ToLower` acts on the ASCII
destination strings the scheduler compares. -/
def toLowerAscii (s : String) : String :=
  String.mk (s.toList.map Char.toLower)

/-- The destination guard of scheduler `main` (part_002:91-93): only jobs
whose target destination lowercases to the Pub/Sub kind are actionable;
all others are skipped with `continue`. -/
def isBusJob (j : job) : Bool :=
  toLowerAscii j.target.destination == "pub/sub"

/-- Cronspec handed to `cron.AddFunc` (part_002:94-97): a non-empty
timezone is encoded as a CRON_TZ prefix on the frequency expression. -/
def cronspecFor (j : job) : String :=
  if j.timezone ≠ "" then "CRON_TZ=" ++ j.timezone ++ " " ++ j.frequency
  else j.frequency

/-- State threaded through the scheduler's startup loop: the topics
existing in the project, the run's `topics` slice, and the cronspecs
registered with the cron engine. -/
structure SchedState where
  busTopics : List String
  topics : List String
  entries : List String
deriving DecidableEq, Repr

/-- Result of the scheduler's startup loop.  `failed` is the clean-up-and-
exit path (part_002:98-105 and 115-121): the already-created topics are
`Stop`ped — which flushes their publishers but does not delete them from
the project — and the process exits with the given code before
`c.Start()` is ever reached.  `started` carries the state with which the
cron engine is then started. -/
inductive StartupResult
  | failed (busTopics : List String) (code : Nat)
  | started (st : SchedState)
deriving DecidableEq, Repr

/-- The job loop of scheduler `main` (part_002:88-123): skip non-bus jobs;
create the job's topic (any creation error: log, `Stop` the topics created
so far, `os.Exit(1)`); register the cronspec (any `AddFunc` error: log,
`Stop` the topics created so far, `os.Exit(1)`); on success record the
topic and the entry. -/
def schedulerStartup (createOk cronOk : String → Bool) :
    List job → SchedState → StartupResult
  | [], st => .started st
  | j :: js, st =>
    if isBusJob j then
      if createOk j.target.topic then
        let st1 : SchedState :=
          { st with busTopics := st.busTopics ++ [j.target.topic] }
        if cronOk (cronspecFor j) then
          schedulerStartup createOk cronOk js
            { st1 with topics := st1.topics ++ [j.target.topic],
                       entries := st1.entries ++ [cronspecFor j] }
        else .failed st1.busTopics 1
      else .failed st.busTopics 1
    else schedulerStartup createOk cronOk js st

/-! ### Shutdown sequencing

Both `main` functions end in straight-line shutdown code; the `Event`
traces below transcribe it.  `cancelSignal` is the firing of the shared
cancellation (the listener's watcher goroutine calling `cancel()`, the
scheduler's select returning); `waitTasks` is blocking until every running
task has completed (the listener's `wg.Wait()`; for the cron engine it
would be waiting on the context returned by `c.Stop()`); `cronStart` and
`cronStop` are `c.Start()` and `c.Stop()`; registered entries can fire
only between those two events.  The scheduler discards the context
returned by `c.Stop()` (part_002:144), so its trace contains no
`waitTasks`. -/
inductive Event
  | cancelSignal
  | waitTasks
  | printCancelling
  | cronStart
  | cronStop
  | logDeleteTopic (t : String)
  | deleteTopicAttempt (t : String)
  | fatalDeleteTopic
  | deleteSubs
deriving DecidableEq, Repr

/-- Shutdown events of listener `main` (main.go:165-181): the watcher fires
`cancel()`, `wg.Wait()` joins every receive loop, the cancelling marker is
printed, then `deleteAllSubscriptions` runs — in that order, once. -/
def listenerShutdownEvents : List Event :=
  [.cancelSignal, .waitTasks, .printCancelling, .deleteSubs]

/-- Topic-deletion loop of scheduler `main` (part_002:146-154): log, then
attempt `t.Delete`; a failed delete hits `log.Fatalf`, which terminates the
process with exit code 1, so no later topic is attempted. -/
def schedulerDeleteEvents (deleteOk : String → Bool) : List String → List Event
  | [] => []
  | t :: ts =>
    if deleteOk t then
      .logDeleteTopic t :: .deleteTopicAttempt t :: schedulerDeleteEvents deleteOk ts
    else [.logDeleteTopic t, .deleteTopicAttempt t, .fatalDeleteTopic]

/-- Shutdown events of scheduler `main` (part_002:132-154): print the
cancelling marker, call `c.Stop()` — discarding the returned context, so
there is no wait for in-flight publish actions — then run the
topic-deletion loop. -/
def schedulerShutdownEvents (deleteOk : String → Bool) (topics : List String) :
    List Event :=
  .printCancelling :: .cronStop :: schedulerDeleteEvents deleteOk topics

/-- Scheduler `main` after flag handling, as a function of the decoded
config and the oracles: run the startup loop from an empty run state; on a
startup failure the process exits before `c.Start()`, so the event trace is
empty and no cron entry ever fires; otherwise the cron engine starts and,
once the select returns, the shutdown sequence runs. -/
def schedulerMain (createOk cronOk deleteOk : String → Bool) (jobs : List job) :
    StartupResult × List Event :=
  match schedulerStartup createOk cronOk jobs ⟨[], [], []⟩ with
  | .failed bus code => (.failed bus code, [])
  | .started st =>
    (.started st, .cronStart :: schedulerShutdownEvents deleteOk st.topics)

/-- Scheduler `main` including the config-decode step (part_002:74-85): a
YAML decode failure is `log.Fatalf` — exit code 1 — before the pubsub
client exists, so no topic is created and nothing runs. -/
def schedulerRun (createOk cronOk deleteOk : String → Bool)
    (decoded : Except String (List job)) : StartupResult × List Event :=
  match decoded with
  | .error _ => (.failed [] 1, [])
  | .ok jobs => schedulerMain createOk cronOk deleteOk jobs

/-- A bus-destination job as in the repository's example config, named and
targeted as given. -/
def sampleJob (nm topicName : String) : job :=
  { name := nm, frequency := "* * * * *",
    target := { destination := "Pub/Sub", topic := topicName },
    payload := "hello cron!" }

/-! ### Helper lemmas -/

/-- The clean-up loop attempts every subscription in the project exactly
once, in enumeration order, whatever the per-deletion outcomes are. -/
theorem deleteLoopSubs_attempted (deleteOk : String → Bool) (l : List BusSub) :
    (deleteLoopSubs deleteOk l).2 = l.map (fun s => s.id) := by
  induction l with
  | nil => rfl
  | cons s rest ih =>
    by_cases hd : deleteOk s.id <;> simp [deleteLoopSubs, hd, ih]

/-- When every deletion succeeds, the clean-up loop leaves no subscription
behind. -/
theorem deleteLoopSubs_all_deleted (l : List BusSub) :
    (deleteLoopSubs (fun _ => true) l).1 = [] := by
  induction l with
  | nil => rfl
  | cons s rest ih => simp [deleteLoopSubs, ih]

/-- The scheduler's topic-deletion loop never emits a wait-for-tasks
event. -/
theorem schedulerDeleteEvents_no_wait (deleteOk : String → Bool)
    (ts : List String) :
    (schedulerDeleteEvents deleteOk ts).count Event.waitTasks = 0 := by
  rw [List.count_eq_zero]
  induction ts with
  | nil => simp [schedulerDeleteEvents]
  | cons t ts ih =>
    by_cases hd : deleteOk t <;> simp [schedulerDeleteEvents, hd, ih]

/-- Startup with no creation or cronspec failure registers exactly the bus
jobs, appending each job's topic to the project, to the run's topic slice
and its cronspec to the entries. -/
theorem schedulerStartup_all_ok (jobs : List job) :
    ∀ st : SchedState,
      schedulerStartup (fun _ => true) (fun _ => true) jobs st
        = .started
            ⟨st.busTopics ++ (jobs.filter isBusJob).map (fun j => j.target.topic),
             st.topics ++ (jobs.filter isBusJob).map (fun j => j.target.topic),
             st.entries ++ (jobs.filter isBusJob).map cronspecFor⟩ := by
  induction jobs with
  | nil => intro st; simp [schedulerStartup]
  | cons j js ih =>
    intro st
    by_cases hb : isBusJob j
    · simp [schedulerStartup, hb, ih, List.filter_cons]
    · simp [schedulerStartup, hb, ih, List.filter_cons]

/-! ### Claim theorems -/

/-- C6: expiration-policy normalization is total on input shapes: the
one-hour duration string and the integer 3600 (seconds) normalize to the
same duration value, an absent policy normalizes to no policy, and every
other dynamic shape — as well as every unparseable duration string — is a
fatal configuration error. -/
theorem expiration_policy_normalization :
    normalizeExpiration (.str "1h") = .ok (.dur 3600000000000) ∧
    normalizeExpiration (.int 3600) = .ok (.dur 3600000000000) ∧
    normalizeExpiration .nil = .ok .nil ∧
    (∀ d : Int,
      normalizeExpiration (.dur d) = .error "not valid expiration policy") ∧
    normalizeExpiration .other = .error "not valid expiration policy" ∧
    (∀ s : String, parseDuration s = none →
      normalizeExpiration (.str s) = .error "failed to parse subscription config") := by
  refine ⟨rfl, rfl, rfl, fun d => rfl, rfl, fun s h => ?_⟩
  simp [normalizeExpiration, h]

/-- Witness for C6 at the unparseable duration string zzz. -/
theorem expiration_policy_normalization_witness :
    normalizeExpiration (.str "zzz") = .error "failed to parse subscription config" :=
  expiration_policy_normalization.2.2.2.2.2 "zzz" (by decide)

/-- C7: with no creation or cronspec failure, startup creates exactly one
topic and registers exactly one cron entry per bus-destination job, and a
non-bus job contributes neither; so N jobs of which M are non-bus yield
exactly N - M topics and N - M entries. -/
theorem nonbus_jobs_produce_nothing (jobs : List job) :
    schedulerStartup (fun _ => true) (fun _ => true) jobs ⟨[], [], []⟩
      = .started
          ⟨(jobs.filter isBusJob).map (fun j => j.target.topic),
           (jobs.filter isBusJob).map (fun j => j.target.topic),
           (jobs.filter isBusJob).map cronspecFor⟩ ∧
    (jobs.filter isBusJob).length
      = jobs.length - (jobs.filter (fun j => ! isBusJob j)).length := by
  constructor
  · simpa using schedulerStartup_all_ok jobs ⟨[], [], []⟩
  · have h := List.length_eq_length_filter_add (l := jobs) isBusJob
    omega

/-- C9: with no configured subscription and no topic in the project, the
listener reaches the no-available-subscriptions branch: it exits with
status 0, the project state is returned untouched (no resource created),
and no receive loop is recorded. -/
theorem no_topics_no_subs_does_nothing (cfg : config)
    (fail deleteOk : String → Bool) (bus : Bus) (runCtx : Ctx)
    (hsubs : cfg.subscriptions = []) (htop : bus.topics = []) :
    listenerMain (.ok cfg) fail deleteOk bus runCtx = .noSubsList bus ∧
    listenerCode (listenerMain (.ok cfg) fail deleteOk bus runCtx) = 0 := by
  have h1 : listenerMain (.ok cfg) fail deleteOk bus runCtx = .noSubsList bus := by
    simp [listenerMain, hsubs, htop, normalizeSubs, synthesizeSubs]
  exact ⟨h1, by rw [h1]; rfl⟩

/-- Witness for C9 at an empty project and a config listing no
subscriptions. -/
theorem no_topics_no_subs_does_nothing_witness :
    listenerMain (.ok { project := "testing" }) (fun _ => false) (fun _ => true)
        ⟨[], []⟩ (.run false) = .noSubsList ⟨[], []⟩ ∧
    listenerCode (listenerMain (.ok { project := "testing" }) (fun _ => false)
        (fun _ => true) ⟨[], []⟩ (.run false)) = 0 :=
  no_topics_no_subs_does_nothing { project := "testing" } (fun _ => false)
    (fun _ => true) ⟨[], []⟩ (.run false) rfl rfl

/-- C10: for any fired run context, the listener teardown is exactly the
deletion pass under the fresh background context and still attempts every
subscription in the project; had the pass run under the fired run context
instead, the bus calls would fail immediately and nothing would be
attempted. -/
theorem teardown_uses_background_context (runCtx : Ctx)
    (deleteOk : String → Bool) (bus : Bus) (h : runCtx.done = true) :
    listenerTeardown runCtx deleteOk bus
      = deleteAllSubscriptionsCtx Ctx.background deleteOk bus ∧
    (listenerTeardown runCtx deleteOk bus).2 = bus.subs.map (fun s => s.id) ∧
    deleteAllSubscriptionsCtx runCtx deleteOk bus = (bus, []) := by
  refine ⟨rfl, ?_, ?_⟩
  · show (deleteAllSubscriptionsCtx Ctx.background deleteOk bus).2 = _
    simp [deleteAllSubscriptionsCtx, Ctx.done, deleteLoopSubs_attempted]
  · simp [deleteAllSubscriptionsCtx, h]

/-- Witness for C10 at a cancelled run context and a one-subscription
project. -/
theorem teardown_uses_background_context_witness :
    listenerTeardown (.run true) (fun _ => true) ⟨["t"], [⟨"s", "t", {}⟩]⟩
      = deleteAllSubscriptionsCtx Ctx.background (fun _ => true)
          ⟨["t"], [⟨"s", "t", {}⟩]⟩ ∧
    (listenerTeardown (.run true) (fun _ => true) ⟨["t"], [⟨"s", "t", {}⟩]⟩).2
      = (Bus.mk ["t"] [⟨"s", "t", {}⟩]).subs.map (fun s => s.id) ∧
    deleteAllSubscriptionsCtx (.run true) (fun _ => true)
        ⟨["t"], [⟨"s", "t", {}⟩]⟩ = (⟨["t"], [⟨"s", "t", {}⟩]⟩, []) :=
  teardown_uses_background_context (.run true) (fun _ => true)
    ⟨["t"], [⟨"s", "t", {}⟩]⟩ rfl

/-- A project holding one subscription s on topic t that pre-exists this
run (created by someone else). -/
def preexistingBus : Bus := ⟨["t"], [⟨"s", "t", {}⟩]⟩

/-- A listener config requesting exactly the subscription id that already
exists in `preexistingBus`. -/
def cfgRequestingS : config :=
  { project := "testing", subscriptions := [{ topic := "t", id := "s" }] }

/-- C1 counterexample: the run's creation of s returns already-exists, so
by the claim s should still be present after deleteAll; in fact the run
finishes having started no receive loop, having attempted s's deletion
during teardown, and having left the project with no subscription at all —
deleteAllSubscriptions enumerates the whole project rather than a per-run
registry. -/
theorem already_exists_sub_deleted_by_teardown :
    listenerMain (.ok cfgRequestingS) (fun _ => false) (fun _ => true)
        preexistingBus (.run false)
      = .finished ⟨["t"], []⟩ [] ["s"] := by decide

/-- C1 amended: the shutdown deletion pass is not restricted to the
subscriptions this run created — it attempts every subscription in the
project exactly once, in enumeration order (pre-existing and
already-exists ones included), and when every deletion succeeds it leaves
the project with no subscription at all. -/
theorem deleteAll_removes_every_project_subscription
    (deleteOk : String → Bool) (bus : Bus) :
    (deleteAllSubscriptions deleteOk bus).2 = bus.subs.map (fun s => s.id) ∧
    (deleteAllSubscriptions (fun _ => true) bus).1 = { bus with subs := [] } := by
  constructor
  · simp [deleteAllSubscriptions, deleteAllSubscriptionsCtx, Ctx.done,
      deleteLoopSubs_attempted]
  · simp [deleteAllSubscriptions, deleteAllSubscriptionsCtx, Ctx.done,
      deleteLoopSubs_all_deleted]

/-- C2 counterexample: two tracked topics a and b with the deletion of a
failing; the scheduler's teardown hits `log.Fatalf` — terminating the
process with exit code 1 — so the deletion of b is never attempted: a
single deletion failure aborts the teardown pass. -/
theorem scheduler_teardown_abort_on_failure :
    schedulerShutdownEvents (fun t => t != "a") ["a", "b"]
      = [.printCancelling, .cronStop, .logDeleteTopic "a",
         .deleteTopicAttempt "a", .fatalDeleteTopic] := by decide

/-- C2 amended: the listener's teardown is best-effort — a failed
subscription deletion is logged and every remaining subscription is still
attempted — but the scheduler's topic-deletion loop is not: its first
deletion failure is logged fatally and terminates the process with exit
code 1, so the remaining topics are never attempted. -/
theorem teardown_failure_handling :
    (∀ (deleteOk : String → Bool) (bus : Bus),
        (deleteAllSubscriptionsCtx Ctx.background deleteOk bus).2
          = bus.subs.map (fun s => s.id)) ∧
    (∀ (deleteOk : String → Bool) (t : String) (ts : List String),
        deleteOk t = false →
        schedulerDeleteEvents deleteOk (t :: ts)
          = [.logDeleteTopic t, .deleteTopicAttempt t, .fatalDeleteTopic]) := by
  constructor
  · intro dOk bus
    simp [deleteAllSubscriptionsCtx, Ctx.done, deleteLoopSubs_attempted]
  · intro dOk t ts h
    simp [schedulerDeleteEvents, h]

/-- Witness for C2 at an always-failing deletion oracle. -/
theorem teardown_failure_handling_witness :
    (deleteAllSubscriptionsCtx Ctx.background (fun _ => false) preexistingBus).2
      = preexistingBus.subs.map (fun s => s.id) ∧
    schedulerDeleteEvents (fun _ => false) ["a", "b"]
      = [.logDeleteTopic "a", .deleteTopicAttempt "a", .fatalDeleteTopic] :=
  ⟨teardown_failure_handling.1 (fun _ => false) preexistingBus,
   teardown_failure_handling.2 (fun _ => false) "a" ["b"] rfl⟩

/-- C5 counterexample: scheduler shutdown with one tracked topic — the
trace goes from `c.Stop()` directly to the topic deletions with no
wait-for-running-tasks event anywhere, because the context returned by
`c.Stop()` (whose Done channel signals completion of the running jobs) is
discarded at part_002:144.  The claim's wait between stopping the engine
and the teardown does not happen. -/
theorem scheduler_stop_does_not_wait :
    schedulerShutdownEvents (fun _ => true) ["cron-job"]
      = [.printCancelling, .cronStop, .logDeleteTopic "cron-job",
         .deleteTopicAttempt "cron-job"] ∧
    (schedulerShutdownEvents (fun _ => true) ["cron-job"]).count Event.waitTasks
      = 0 := by
  constructor <;> decide

/-- C5 amended: the listener's shutdown does run the claimed sequence
exactly once — cancellation signal, then the join of all receive loops,
then the teardown; the scheduler's shutdown also runs exactly once but
proceeds from `c.Stop()` straight to topic deletion without ever waiting
for in-flight publish actions. -/
theorem shutdown_sequencing :
    listenerShutdownEvents
      = [.cancelSignal, .waitTasks, .printCancelling, .deleteSubs] ∧
    listenerShutdownEvents.count Event.deleteSubs = 1 ∧
    (∀ (deleteOk : String → Bool) (topics : List String),
        (schedulerShutdownEvents deleteOk topics).count Event.waitTasks = 0) ∧
    (∀ (deleteOk : String → Bool) (topics : List String),
        (schedulerShutdownEvents deleteOk topics).take 2
          = [.printCancelling, .cronStop]) := by
  refine ⟨rfl, by decide, ?_, fun dOk ts => rfl⟩
  intro dOk ts
  simp [schedulerShutdownEvents, List.count_cons, schedulerDeleteEvents_no_wait]

/-- Every failure exit of the scheduler's startup loop carries exit
code 1 (`os.Exit(1)` on both the creation-error and the cronspec-error
paths). -/
theorem schedulerStartup_failed_code (createOk cronOk : String → Bool) :
    ∀ (jobs : List job) (st : SchedState) (b : List String) (c : Nat),
      schedulerStartup createOk cronOk jobs st = .failed b c → c = 1 := by
  intro jobs
  induction jobs with
  | nil => intro st b c h; simp [schedulerStartup] at h
  | cons j js ih =>
    intro st b c h
    simp only [schedulerStartup] at h
    split at h
    · split at h
      · split at h
        · exact ih _ _ _ h
        · injection h with h1 h2; exact h2.symm
      · injection h with h1 h2; exact h2.symm
    · exact ih _ _ _ h

/-- The three-job configuration of the end-to-end scenario: three bus
jobs targeting topics t1, t2 and t3. -/
def scenario3jobs : List job :=
  [sampleJob "j1" "t1", sampleJob "j2" "t2", sampleJob "j3" "t3"]

/-- C3 counterexample: with three jobs and topic creation failing on the
second, the claim says the first (already created) topic is deleted; in
fact the process exits 1 with t1 still existing in the project — the
clean-up loop calls `t.Stop()`, which flushes the topic's publisher but
does not delete the topic from the bus — and the empty event trace shows
the cron engine never started. -/
theorem topic_create_failure_first_topic_not_deleted :
    schedulerMain (fun t => t != "t2") (fun _ => true) (fun _ => true)
        scenario3jobs
      = (.failed ["t1"] 1, []) := by decide

/-- C3 amended: a topic-creation failure makes startup return the
clean-up-and-exit result with code 1 while the topics created earlier in
the run still exist in the project (they are stopped — flushed — not
deleted); any failed startup yields an empty event trace, so the cron
engine never starts and no entry ever fires; in the three-job scenario
with the second creation failing, the first topic survives on the bus. -/
theorem create_failure_stops_and_exits :
    (∀ (createOk cronOk : String → Bool) (j : job) (js : List job)
        (st : SchedState), isBusJob j = true → createOk j.target.topic = false →
        schedulerStartup createOk cronOk (j :: js) st = .failed st.busTopics 1) ∧
    (∀ (createOk cronOk deleteOk : String → Bool) (jobs : List job)
        (bus : List String) (code : Nat) (tr : List Event),
        schedulerMain createOk cronOk deleteOk jobs = (.failed bus code, tr) →
        code = 1 ∧ tr = [] ∧ tr.count Event.cronStart = 0) ∧
    schedulerMain (fun t => t != "t2") (fun _ => true) (fun _ => true)
        scenario3jobs
      = (.failed ["t1"] 1, []) := by
  refine ⟨?_, ?_, by decide⟩
  · intro createOk cronOk j js st hb hc
    simp [schedulerStartup, hb, hc]
  · intro createOk cronOk deleteOk jobs bus code tr h
    simp only [schedulerMain] at h
    cases hs : schedulerStartup createOk cronOk jobs ⟨[], [], []⟩ with
    | failed b2 c2 =>
      rw [hs] at h
      have hc2 := schedulerStartup_failed_code createOk cronOk jobs
        ⟨[], [], []⟩ b2 c2 hs
      simp only [Prod.mk.injEq, StartupResult.failed.injEq] at h
      obtain ⟨⟨hb2, hcode⟩, htr⟩ := h
      subst hcode
      subst htr
      exact ⟨hc2, rfl, rfl⟩
    | started st =>
      rw [hs] at h
      simp at h

/-- Witness for C3 at a single bus job whose topic creation fails. -/
theorem create_failure_stops_and_exits_witness :
    schedulerStartup (fun _ => false) (fun _ => true)
        [sampleJob "j1" "t1"] ⟨[], [], []⟩ = .failed [] 1 ∧
    ((1 : Nat) = 1 ∧ ([] : List Event) = [] ∧
      ([] : List Event).count Event.cronStart = 0) :=
  ⟨create_failure_stops_and_exits.1 (fun _ => false) (fun _ => true)
      (sampleJob "j1" "t1") [] ⟨[], [], []⟩ (by decide) rfl,
   create_failure_stops_and_exits.2.1 (fun _ => false) (fun _ => true)
      (fun _ => true) [sampleJob "j1" "t1"] [] 1 [] (by decide)⟩

/-- C4 counterexample: one bus job whose cron expression `cron.AddFunc`
rejects; the process exits 1, but its topic t1 was already created in the
project before the configuration error was reported — the exit does not
happen before any bus resource is created. -/
theorem invalid_cron_after_topic_created :
    schedulerMain (fun _ => true) (fun _ => false) (fun _ => true)
        [sampleJob "j1" "t1"]
      = (.failed ["t1"] 1, []) := by decide

/-- C4 amended: a malformed config file and an invalid expiration-policy
shape are fatal and reported before any bus resource is created (the
project state carried out is the untouched input); an invalid cron
expression is also fatal with a non-zero exit, but it is detected at
registration time, after the failing job's topic — and any earlier
jobs' topics — have already been created in the project. -/
theorem config_error_reporting :
    (∀ (e : String) (fail deleteOk : String → Bool) (bus : Bus) (runCtx : Ctx),
        listenerMain (.error e) fail deleteOk bus runCtx = .fatalConfig e bus) ∧
    (∀ (cfg : config) (e : String) (fail deleteOk : String → Bool) (bus : Bus)
        (runCtx : Ctx), normalizeSubs cfg.subscriptions = .error e →
        listenerMain (.ok cfg) fail deleteOk bus runCtx = .fatalConfig e bus) ∧
    (∀ (createOk cronOk : String → Bool) (j : job) (js : List job)
        (st : SchedState), isBusJob j = true → createOk j.target.topic = true →
        cronOk (cronspecFor j) = false →
        schedulerStartup createOk cronOk (j :: js) st
          = .failed (st.busTopics ++ [j.target.topic]) 1) := by
  refine ⟨fun e fail dOk bus rc => rfl, ?_, ?_⟩
  · intro cfg e fail dOk bus rc h
    simp [listenerMain, h]
  · intro createOk cronOk j js st hb hc hcr
    simp [schedulerStartup, hb, hc, hcr]

/-- A listener config whose single subscription carries an expiration
policy of an unsupported dynamic shape. -/
def badPolicyCfg : config :=
  { project := "testing",
    subscriptions := [{ topic := "t", id := "s",
                        config := { expirationPolicy := .other } }] }

/-- Witness for C4: the invalid-policy config is fatal with the project
untouched, and a one-job config with a rejected cron expression fails
after creating topic t1. -/
theorem config_error_reporting_witness :
    listenerMain (.ok badPolicyCfg) (fun _ => false) (fun _ => true)
        ⟨[], []⟩ (.run false)
      = .fatalConfig "not valid expiration policy" ⟨[], []⟩ ∧
    schedulerStartup (fun _ => true) (fun _ => false)
        [sampleJob "j1" "t1"] ⟨[], [], []⟩ = .failed ["t1"] 1 :=
  ⟨config_error_reporting.2.1 badPolicyCfg "not valid expiration policy"
      (fun _ => false) (fun _ => true) ⟨[], []⟩ (.run false) rfl,
   config_error_reporting.2.2 (fun _ => true) (fun _ => false)
      (sampleJob "j1" "t1") [] ⟨[], [], []⟩ (by decide) rfl rfl⟩

/-- On a project holding no subscription whose id collides with the given
topic list, the creation loop over the synthesized subscriptions (each
with the zero config) substitutes the default config for every one of
them, creates them all, and starts one receive loop per topic. -/
theorem subscribeAll_fresh (deleteOk : String → Bool)
    (dCfg : SubscriptionConfig) :
    ∀ (ts : List String) (bus : Bus) (loops : List String),
      ts.Nodup → (∀ t ∈ ts, ∀ b ∈ bus.subs, b.id ≠ t) →
      subscribeAll (fun _ => false) deleteOk dCfg
          (ts.map (fun t => { topic := t, id := t })) bus loops
        = .running
            { bus with subs := bus.subs ++ ts.map (fun t => ⟨t, t, dCfg⟩) }
            (loops ++ ts) := by
  intro ts
  induction ts with
  | nil => intro bus loops _ _; simp [subscribeAll]
  | cons t ts ih =>
    intro bus loops hnd hfresh
    have hany : bus.subs.any (fun s => s.id == t) = false := by
      rw [List.any_eq_false]
      intro b hb
      simpa using hfresh t (List.mem_cons_self t ts) b hb
    have hnotmem : t ∉ ts := (List.nodup_cons.1 hnd).1
    have hstep : subscribeAll (fun _ => false) deleteOk dCfg
        ((t :: ts).map (fun t => ({ topic := t, id := t } : subscription)))
        bus loops
        = subscribeAll (fun _ => false) deleteOk dCfg
            (ts.map (fun t => { topic := t, id := t }))
            { bus with subs := bus.subs ++ [⟨t, t, dCfg⟩] } (loops ++ [t]) := by
      simp [subscribeAll, createSubscription, hany, isEmptyConfig]
    rw [hstep,
      ih { bus with subs := bus.subs ++ [⟨t, t, dCfg⟩] } (loops ++ [t])
        (List.nodup_cons.1 hnd).2 ?fresh]
    · simp
    case fresh =>
      intro t2 ht2 b hb
      rcases List.mem_append.1 hb with hb | hb
      · exact hfresh t2 (List.mem_cons_of_mem _ ht2) b hb
      · have hbt : b = ⟨t, t, dCfg⟩ := by simpa using hb
        subst hbt
        intro hbad
        exact hnotmem (by simpa [hbad.symm] using ht2)

/-- C8: with an empty configured subscription list the listener
synthesizes exactly one subscription per topic visible in the project —
subscription id equal to the topic id, zero config — and the creation
loop applies the default configuration to each of them, creating one
project subscription and starting one receive loop per topic. -/
theorem empty_config_synthesizes_per_topic (ts : List String)
    (deleteOk : String → Bool) (dCfg : SubscriptionConfig) (h : ts.Nodup) :
    synthesizeSubs ts [] = ts.map (fun t => { topic := t, id := t }) ∧
    subscribeAll (fun _ => false) deleteOk dCfg (synthesizeSubs ts [])
        ⟨ts, []⟩ []
      = .running ⟨ts, ts.map (fun t => ⟨t, t, dCfg⟩)⟩ ts := by
  have hsyn : synthesizeSubs ts []
      = ts.map (fun t => ({ topic := t, id := t } : subscription)) := by
    simp [synthesizeSubs]
  refine ⟨hsyn, ?_⟩
  rw [hsyn, subscribeAll_fresh deleteOk dCfg ts ⟨ts, []⟩ [] h ?_]
  · simp
  · intro t ht b hb
    simp at hb

/-- Witness for C8 at the two topics of end-to-end scenario 2 and a
non-zero default config. -/
theorem empty_config_synthesizes_per_topic_witness :
    synthesizeSubs ["a", "b"] []
      = [{ topic := "a", id := "a" }, { topic := "b", id := "b" }] ∧
    subscribeAll (fun _ => false) (fun _ => true) { ackDeadline := 10 }
        (synthesizeSubs ["a", "b"] []) ⟨["a", "b"], []⟩ []
      = .running
          ⟨["a", "b"],
           [⟨"a", "a", { ackDeadline := 10 }⟩, ⟨"b", "b", { ackDeadline := 10 }⟩]⟩
          ["a", "b"] :=
  empty_config_synthesizes_per_topic ["a", "b"] (fun _ => true)
    { ackDeadline := 10 } (by decide)
